import Mathlib

/-
Verification of the range-proof circuit in src/check_bbs_bounds.rs.

The circuit `BoundCheckCircuit` enforces `min < value < max` over the
BLS12-381 scalar field.  The constraint-system machinery of arkworks is
embedded as explicit state passing: allocating a variable either records
an assignment (proving mode) or only bumps a counter (setup mode), and
`enforce_cmp` records a comparison constraint.
-/

/-- Order of the BLS12-381 scalar field, the `Fr` used by the tests. -/
abbrev bls12_381_r : Nat :=
  52435875175126190479447740508185965837690552500527637822603658699938581184513

/-- The scalar field `Fr` of BLS12-381. -/
abbrev Fr : Type := ZMod bls12_381_r

/-- Error type of constraint generation (`ark_relations::r1cs::SynthesisError`;
only the variant this circuit produces is modelled). -/
inductive SynthesisError where
  | AssignmentMissing
deriving DecidableEq, Repr

/-- Whether the constraint system is being built for setup (shape only,
assignments never evaluated) or for proving (assignments evaluated). -/
inductive SynthesisMode where
  | Setup
  | Prove
deriving DecidableEq, Repr

/-- Allocation mode of a variable (`ark_r1cs_std::alloc::AllocationMode`):
`Witness` is a prover-only secret, `Input` is public. -/
inductive AllocationMode where
  | Witness
  | Input
deriving DecidableEq, Repr

/-- A variable of the constraint system: the constant one, the `i`-th public
input variable, or the `i`-th witness variable. -/
inductive Var where
  | one
  | instVar (i : Nat)
  | witVar (i : Nat)
deriving DecidableEq, Repr

/-- A constraint recorded by the circuit.  `cmp` is the comparison constraint
emitted by `enforce_cmp` (strict when `should_also_check_equality = false`);
`range_bits` is a bit-length range check, present in the constraint language
so that its absence from the generated system is expressible. -/
inductive Constraint where
  | cmp (lhs rhs : Var) (ord : Ordering) (should_also_check_equality : Bool)
  | range_bits (x : Var) (num_bits : Nat)
deriving DecidableEq, Repr

/-- The constraint system accumulated while running `generate_constraints`
(mirrors `ark_relations::r1cs::ConstraintSystem`: mode, variable counters,
assignments; `allocation_order` records the mode of each allocation in
order). -/
structure ConstraintSystem where
  mode : SynthesisMode
  num_witness_variables : Nat
  num_instance_variables : Nat
  witness_assignment : List Fr
  instance_assignment : List Fr
  allocation_order : List AllocationMode
  constraints : List Constraint
deriving DecidableEq, Repr

instance {ε α : Type} [DecidableEq ε] [DecidableEq α] : DecidableEq (Except ε α) :=
  fun x y =>
    match x, y with
    | .ok a, .ok b =>
      if h : a = b then .isTrue (congrArg Except.ok h)
      else .isFalse (fun hh => h (Except.ok.inj hh))
    | .ok _, .error _ => .isFalse (fun hh => Except.noConfusion hh)
    | .error _, .ok _ => .isFalse (fun hh => Except.noConfusion hh)
    | .error e, .error f =>
      if h : e = f then .isTrue (congrArg Except.error h)
      else .isFalse (fun hh => h (Except.error.inj hh))

/-- A fresh constraint system in the given mode. -/
def empty_cs (m : SynthesisMode) : ConstraintSystem :=
  { mode := m
    num_witness_variables := 0
    num_instance_variables := 0
    witness_assignment := []
    instance_assignment := []
    allocation_order := []
    constraints := [] }

/-- `Option::ok_or`: convert an optional value into a result. -/
def ok_or (o : Option Fr) (e : SynthesisError) : Except SynthesisError Fr :=
  match o with
  | some x => .ok x
  | none => .error e

/-- `FpVar::new_variable`: allocate one field variable.  In `Setup` mode the
value closure is never evaluated; in `Prove` mode the closure
(`self.field.ok_or(AssignmentMissing)`, passed here as the `Option` together
with the error) is evaluated and its value recorded. -/
def new_variable (cs : ConstraintSystem) (f : Option Fr) (mode : AllocationMode) :
    Except SynthesisError (Var × ConstraintSystem) :=
  match mode with
  | .Witness =>
    match cs.mode with
    | .Setup =>
      .ok (.witVar cs.num_witness_variables,
        { cs with
            num_witness_variables := cs.num_witness_variables + 1
            allocation_order := cs.allocation_order ++ [.Witness] })
    | .Prove =>
      match ok_or f .AssignmentMissing with
      | .error e => .error e
      | .ok v =>
        .ok (.witVar cs.num_witness_variables,
          { cs with
              num_witness_variables := cs.num_witness_variables + 1
              witness_assignment := cs.witness_assignment ++ [v]
              allocation_order := cs.allocation_order ++ [.Witness] })
  | .Input =>
    match cs.mode with
    | .Setup =>
      .ok (.instVar cs.num_instance_variables,
        { cs with
            num_instance_variables := cs.num_instance_variables + 1
            allocation_order := cs.allocation_order ++ [.Input] })
    | .Prove =>
      match ok_or f .AssignmentMissing with
      | .error e => .error e
      | .ok v =>
        .ok (.instVar cs.num_instance_variables,
          { cs with
              num_instance_variables := cs.num_instance_variables + 1
              instance_assignment := cs.instance_assignment ++ [v]
              allocation_order := cs.allocation_order ++ [.Input] })

/-- `FpVar::enforce_cmp`: record a comparison constraint between two
variables (the gadget itself cannot fail for these inputs). -/
def enforce_cmp (cs : ConstraintSystem) (lhs rhs : Var) (ord : Ordering)
    (should_also_check_equality : Bool) : Except SynthesisError ConstraintSystem :=
  .ok { cs with
          constraints :=
            cs.constraints ++ [.cmp lhs rhs ord should_also_check_equality] }

/-- The circuit of src/check_bbs_bounds.rs: optional `min`, `max`, `value`
(generic over a prime field in the source; instantiated at BLS12-381 `Fr`,
the field used by every claim). -/
structure BoundCheckCircuit where
  min : Option Fr
  max : Option Fr
  value : Option Fr
deriving DecidableEq, Repr

/-- `BoundCheckCircuit::generate_constraints` (src/check_bbs_bounds.rs lines
22-48): allocate `value` as a witness, `min` and `max` as public inputs, then
enforce `val < max` and `val > min`, both strict. -/
def generate_constraints (c : BoundCheckCircuit) (cs : ConstraintSystem) :
    Except SynthesisError ConstraintSystem := do
  let (val, cs) ← new_variable cs c.value .Witness
  let (mn, cs) ← new_variable cs c.min .Input
  let (mx, cs) ← new_variable cs c.max .Input
  let cs ← enforce_cmp cs val mx .lt false
  let cs ← enforce_cmp cs val mn .gt false
  pure cs

/-- Value of a variable under the assignments of a constraint system. -/
def eval_var (cs : ConstraintSystem) : Var → Option Fr
  | .one => some 1
  | .instVar i => cs.instance_assignment[i]?
  | .witVar i => cs.witness_assignment[i]?

/-- Modelled from the spec: satisfaction semantics of one constraint.  The
comparison gadget `enforce_cmp` lives in the external crate ark-r1cs-std
(out of scope per the spec, with the contract of section 4.1): a strict
comparison is satisfied exactly when the integer representatives of the two
operands compare strictly, under the documented assumption that values are
small relative to the field. -/
def holdsB (cs : ConstraintSystem) : Constraint → Bool
  | .cmp lhs rhs ord should_also_check_equality =>
    match eval_var cs lhs, eval_var cs rhs with
    | some a, some b =>
      match ord, should_also_check_equality with
      | .lt, false => decide (a.val < b.val)
      | .lt, true => decide (a.val ≤ b.val)
      | .gt, false => decide (b.val < a.val)
      | .gt, true => decide (b.val ≤ a.val)
      | .eq, _ => decide (a = b)
    | _, _ => false
  | .range_bits x num_bits =>
    match eval_var cs x with
    | some a => decide (a.val < 2 ^ num_bits)
    | none => false

/-- A constraint system is satisfied when every recorded constraint holds
under its assignments. -/
def satisfiedB (cs : ConstraintSystem) : Bool :=
  cs.constraints.all (holdsB cs)

/-- The constraint system produced by a proving-mode run of
`generate_constraints` with concrete `min`, `max`, `value`. -/
def prove_cs (mn mx v : Fr) : ConstraintSystem :=
  { mode := .Prove
    num_witness_variables := 1
    num_instance_variables := 2
    witness_assignment := [v]
    instance_assignment := [mn, mx]
    allocation_order := [.Witness, .Input, .Input]
    constraints :=
      [.cmp (.witVar 0) (.instVar 1) .lt false,
       .cmp (.witVar 0) (.instVar 0) .gt false] }

/-- The constraint shape produced by the setup-mode run of
`generate_constraints` (no assignments, only counters and constraints). -/
def setup_cs : ConstraintSystem :=
  { mode := .Setup
    num_witness_variables := 1
    num_instance_variables := 2
    witness_assignment := []
    instance_assignment := []
    allocation_order := [.Witness, .Input, .Input]
    constraints :=
      [.cmp (.witVar 0) (.instVar 1) .lt false,
       .cmp (.witVar 0) (.instVar 0) .gt false] }

theorem generate_constraints_prove_eq (mn mx v : Fr) :
    generate_constraints ⟨some mn, some mx, some v⟩ (empty_cs .Prove) =
      .ok (prove_cs mn mx v) := rfl

theorem generate_constraints_setup_eq (c : BoundCheckCircuit) :
    generate_constraints c (empty_cs .Setup) = .ok setup_cs := rfl

/-
The LegoGroth16 prover/verifier and the Pedersen-commitment opening check
are external collaborators (the legogroth16 crate), out of scope per the
spec.  They are modelled from the spec, sections 4.2, 4.3 and 8, with group
elements of G1 written in discrete-log form as scalars of `Fr`, so that a
multi-scalar multiplication is a sum of products.
-/

/-- Modelled from the spec (section 4.2): the verifying key produced by
`generate_random_parameters`.  `gamma_abc_g1` holds one basis element for
the constant, one per public input, and one per committable witness, in
that order; `eta_gamma_inv_g1` is the basis of the blinding term.  Group
elements are in discrete-log form. -/
structure VerifyingKey where
  gamma_abc_g1 : List Fr
  eta_gamma_inv_g1 : Fr
deriving DecidableEq, Repr

/-- Errors of commitment-opening verification (spec section 7):
`MalformedSpec` for an out-of-bounds slot, `CommitmentMismatch` for a wrong
claimed value, randomness or slot basis. -/
inductive OpeningError where
  | MalformedSpec
  | CommitmentMismatch
deriving DecidableEq, Repr

/-- Multi-scalar multiplication in discrete-log form: the sum of pairwise
products of scalars and bases. -/
def msm (scalars bases : List Fr) : Fr :=
  (List.zipWith (fun s b => s * b) scalars bases).sum

/-- Modelled from the spec (section 4.3): the proof object of
`create_random_proof`.  `d` is the bundled Pedersen commitment to the
committable witnesses; the proof is bound to the public inputs of the
instance and verifies exactly when the underlying constraints were
satisfied. -/
structure Proof where
  d : Fr
  instance_assignment : List Fr
  constraints_satisfied : Bool
deriving DecidableEq, Repr

/-- The count of committable witnesses fixed at setup in the test
(src/check_bbs_bounds.rs line 84). -/
def commit_witness_count : Nat := 1

/-- Modelled from the spec (section 4.3): `create_random_proof` runs the
circuit in proving mode; on success the proof carries the commitment
`d = sum of the first commit_witness_count witness values times their key
bases, plus v times the blinding basis`, the public inputs, and whether the
constraints were satisfied. -/
def create_random_proof (c : BoundCheckCircuit) (v : Fr) (vk : VerifyingKey)
    (cwc : Nat) : Except SynthesisError Proof :=
  match generate_constraints c (empty_cs .Prove) with
  | .error e => .error e
  | .ok cs =>
    .ok { d := msm (cs.witness_assignment.take cwc)
              ((vk.gamma_abc_g1.drop (1 + cs.num_instance_variables)).take cwc)
            + v * vk.eta_gamma_inv_g1
          instance_assignment := cs.instance_assignment
          constraints_satisfied := satisfiedB cs }

/-- Modelled from the spec (section 4.3): `verify_witness_commitment`
recomputes the commitment from the claimed values and blinding against the
basis elements associated with slot index `n` (the verifying-key elements
following the first `1 + n`), and compares it with the proof's `d`.  An
out-of-bounds slot is an error, a mismatching commitment is an error. -/
def verify_witness_commitment (vk : VerifyingKey) (pf : Proof) (n : Nat)
    (committed_witnesses : List Fr) (v : Fr) : Except OpeningError Unit :=
  if vk.gamma_abc_g1.length < 1 + n + committed_witnesses.length then
    .error .MalformedSpec
  else if msm committed_witnesses
            ((vk.gamma_abc_g1.drop (1 + n)).take committed_witnesses.length)
          + v * vk.eta_gamma_inv_g1 = pf.d then
    .ok ()
  else
    .error .CommitmentMismatch

/-- True exactly when an opening verification succeeded. -/
def opening_ok (e : Except OpeningError Unit) : Bool :=
  match e with
  | .ok _ => true
  | .error _ => false

/-- Modelled from the spec (section 4.3): `verify_proof` checks the SNARK
proof against the supplied public inputs; it succeeds exactly when the
proof's constraints were satisfied and the supplied public inputs are the
ones the proof is bound to, in the same order. -/
def verify_proof (pf : Proof) (public_inputs : List Fr) : Bool :=
  decide (public_inputs = pf.instance_assignment) && pf.constraints_satisfied

/-- A circuit instance with all three values present, as built at proving
time in the test (src/check_bbs_bounds.rs lines 110-114). -/
def test_circuit (mn mx value : Fr) : BoundCheckCircuit :=
  { min := some mn, max := some mx, value := some value }

/-- A verifying key whose `gamma_abc_g1` has the four elements matching the
test's circuit (one constant, two public inputs, one committable witness). -/
def test_vk (g0 g1 g2 g3 eta : Fr) : VerifyingKey :=
  { gamma_abc_g1 := [g0, g1, g2, g3], eta_gamma_inv_g1 := eta }

/-- Modelled from the spec: the signed attribute vector produced by the test
helper `sig_setup` (repository code under `crate::tests`, not under src/).
Section 8 fixes only its length (10 attributes) and that attribute index 4
has value 103; the remaining attribute values are unconstrained by the spec
and are taken to be distinct small scalars. -/
def messages : List Fr :=
  [200, 201, 202, 203, 103, 205, 206, 207, 208, 209]

/-- The index of the proved message in the test
(src/check_bbs_bounds.rs line 104). -/
def msg_idx : Nat := 4

/-
The statement / meta-statement layer of the aggregate proof
(the proof_system crate; only the data claimed about is embedded).
-/

/-- A `WitnessRef`: a pair (statement index, witness-slot index). -/
abbrev WitnessRef : Type := Nat × Nat

/-- `EqualWitnesses`: a set of witness references asserted equal
(`BTreeSet<WitnessRef>` in the source, embedded as a finite set, which is
exactly the set semantics of a `BTreeSet`). -/
structure EqualWitnesses where
  refs : Finset WitnessRef
deriving DecidableEq

/-- A meta-statement of the composition engine (only the variant used by
the test is embedded). -/
inductive MetaStatement where
  | WitnessEquality (ew : EqualWitnesses)
deriving DecidableEq

/-- The meta-statement built in the test (src/check_bbs_bounds.rs lines
146-151): the 0th statement's `msg_idx`-th witness equals the 1st
statement's 0th witness. -/
def test_meta_statement : MetaStatement :=
  .WitnessEquality ⟨{(0, msg_idx), (1, 0)}⟩

/-- True of a constraint that is a comparison with
`should_also_check_equality = false`, i.e. a strict comparison. -/
def is_strict_cmp : Constraint → Bool
  | .cmp _ _ _ b => !b
  | .range_bits _ _ => false

/-- True of a constraint that is a bit-length range check. -/
def is_range_check : Constraint → Bool
  | .cmp _ _ _ _ => false
  | .range_bits _ _ => true

/-
Theorems settling the claims.
-/

/-- Claim C1: for every choice of field elements min, max, value, the
proving-mode run of generate_constraints succeeds and the produced
constraint system is satisfied exactly when min < value and value < max
hold strictly in the order of integer representatives; at value = min or
value = max it is not satisfied, and the proof built from such a boundary
instance fails verification for every verifying key and blinding. -/
theorem bound_check_satisfiable_iff (mn mx v r : Fr) (vk : VerifyingKey) :
    generate_constraints ⟨some mn, some mx, some v⟩ (empty_cs .Prove) =
      .ok (prove_cs mn mx v) ∧
    (satisfiedB (prove_cs mn mx v) = true ↔ mn.val < v.val ∧ v.val < mx.val) ∧
    satisfiedB (prove_cs mn mx mn) = false ∧
    satisfiedB (prove_cs mn mx mx) = false ∧
    (∃ pf, create_random_proof (test_circuit mn mx mn) r vk commit_witness_count =
        .ok pf ∧ verify_proof pf [mn, mx] = false) ∧
    (∃ pf, create_random_proof (test_circuit mn mx mx) r vk commit_witness_count =
        .ok pf ∧ verify_proof pf [mn, mx] = false) := by
  have hmin : satisfiedB (prove_cs mn mx mn) = false := by
    simp [satisfiedB, prove_cs, holdsB, eval_var]
  have hmax : satisfiedB (prove_cs mn mx mx) = false := by
    simp [satisfiedB, prove_cs, holdsB, eval_var]
  refine ⟨rfl, ?_, hmin, hmax, ⟨_, rfl, ?_⟩, ⟨_, rfl, ?_⟩⟩
  · simp only [satisfiedB, prove_cs, holdsB, eval_var, List.all_cons, List.all_nil,
      List.getElem?_cons_zero, List.getElem?_cons_succ, Bool.and_true,
      Bool.and_eq_true, decide_eq_true_eq]
    exact and_comm
  · simp [create_random_proof, verify_proof, empty_cs, satisfiedB, holdsB, eval_var]
  · simp [create_random_proof, verify_proof, empty_cs, satisfiedB, holdsB, eval_var]

/-- Claim C2: if any of value, min, max is absent in a proving-mode run,
generate_constraints fails with AssignmentMissing; in the setup-mode run
assignments are never evaluated, so the same circuit succeeds and produces
only the constraint shape. -/
theorem assignment_missing_when_absent_at_proving (c : BoundCheckCircuit)
    (h : c.value = none ∨ c.min = none ∨ c.max = none) :
    generate_constraints c (empty_cs .Prove) = .error .AssignmentMissing ∧
    generate_constraints c (empty_cs .Setup) = .ok setup_cs := by
  obtain ⟨mn, mx, v⟩ := c
  refine ⟨?_, rfl⟩
  cases v <;> cases mn <;> cases mx <;>
    simp_all [generate_constraints, new_variable, ok_or, empty_cs, Bind.bind, Except.bind]

/-- Witness for claim C2 at the all-absent circuit of the setup call in the
test (src/check_bbs_bounds.rs lines 86-90). -/
theorem assignment_missing_when_absent_at_proving_witness :
    ((⟨none, none, none⟩ : BoundCheckCircuit).value = none ∨
      (⟨none, none, none⟩ : BoundCheckCircuit).min = none ∨
      (⟨none, none, none⟩ : BoundCheckCircuit).max = none) ∧
    (generate_constraints ⟨none, none, none⟩ (empty_cs .Prove) =
        .error .AssignmentMissing ∧
      generate_constraints ⟨none, none, none⟩ (empty_cs .Setup) = .ok setup_cs) :=
  ⟨Or.inl rfl,
    assignment_missing_when_absent_at_proving ⟨none, none, none⟩ (Or.inl rfl)⟩

/-- Claim C5: value is allocated as a secret witness variable and min and
max as public input variables in that order, the two strict comparison
constraints value < max and value > min are enforced over them, and the
proof built from the instance verifies against the public inputs taken in
the order [min, max]. -/
theorem circuit_allocation_and_public_input_order (mn mx v r : Fr)
    (vk : VerifyingKey) :
    generate_constraints ⟨some mn, some mx, some v⟩ (empty_cs .Prove) =
      .ok (prove_cs mn mx v) ∧
    (prove_cs mn mx v).allocation_order = [.Witness, .Input, .Input] ∧
    (prove_cs mn mx v).witness_assignment = [v] ∧
    (prove_cs mn mx v).instance_assignment = [mn, mx] ∧
    (prove_cs mn mx v).constraints =
      [.cmp (.witVar 0) (.instVar 1) .lt false,
       .cmp (.witVar 0) (.instVar 0) .gt false] ∧
    (∃ pf, create_random_proof (test_circuit mn mx v) r vk commit_witness_count =
        .ok pf ∧
      pf.instance_assignment = [mn, mx] ∧
      verify_proof pf [mn, mx] = satisfiedB (prove_cs mn mx v)) := by
  refine ⟨rfl, rfl, rfl, rfl, rfl, ⟨_, rfl, ?_, ?_⟩⟩
  · simp [create_random_proof, empty_cs]
  · simp [create_random_proof, verify_proof, empty_cs]
    rfl

/-- Counterexample to claim C6 as stated: with all three values absent,
the setup-mode run succeeds (so AssignmentMissing does not arise at setup
time), while the proving-mode run fails with AssignmentMissing (so it is an
error during proving). -/
theorem missing_assignment_mode_counterexample :
    generate_constraints ⟨none, none, none⟩ (empty_cs .Setup) = .ok setup_cs ∧
    generate_constraints ⟨none, none, none⟩ (empty_cs .Prove) =
      .error .AssignmentMissing :=
  ⟨rfl, rfl⟩

/-- Claim C6 as amended: the AssignmentMissing error condition arises at
proving time only (exactly when a required value is absent) and is never an
error during setup, where assignments are not evaluated. -/
theorem missing_assignment_at_proving_only (c : BoundCheckCircuit) :
    generate_constraints c (empty_cs .Setup) = .ok setup_cs ∧
    (generate_constraints c (empty_cs .Prove) = .error .AssignmentMissing ↔
      (c.value = none ∨ c.min = none ∨ c.max = none)) := by
  obtain ⟨mn, mx, v⟩ := c
  refine ⟨rfl, ?_⟩
  cases v <;> cases mn <;> cases mx <;>
    simp [generate_constraints, new_variable, ok_or, empty_cs, Bind.bind, Except.bind,
      enforce_cmp, Pure.pure, Except.pure]

/-- Claim C7: the WitnessEquality meta-statement built in the test is the
set of exactly the two witness references (0, msg_idx) = (0, 4) and (1, 0),
with set semantics (the order of the two references is irrelevant) and at
least two references. -/
theorem witness_equality_set_semantics :
    test_meta_statement = .WitnessEquality ⟨{(0, 4), (1, 0)}⟩ ∧
    test_meta_statement = .WitnessEquality ⟨{(1, 0), (0, 4)}⟩ ∧
    (({(0, msg_idx), (1, 0)} : Finset WitnessRef)).card = 2 ∧
    2 ≤ (({(0, msg_idx), (1, 0)} : Finset WitnessRef)).card := by
  have hcard : (({(0, msg_idx), (1, 0)} : Finset WitnessRef)).card = 2 :=
    Finset.card_pair (by decide)
  refine ⟨rfl, ?_, hcard, le_of_eq hcard.symm⟩
  simp [test_meta_statement, msg_idx, Finset.pair_comm]

/-- Claim C8: in both the setup-mode and the proving-mode run the generated
constraint list is exactly the two strict-comparison enforcements; every
constraint is a strict comparison and none is a bit-length range check. -/
theorem no_explicit_bit_length_bound (c : BoundCheckCircuit) (mn mx v : Fr) :
    generate_constraints c (empty_cs .Setup) = .ok setup_cs ∧
    setup_cs.constraints =
      [.cmp (.witVar 0) (.instVar 1) .lt false,
       .cmp (.witVar 0) (.instVar 0) .gt false] ∧
    (prove_cs mn mx v).constraints = setup_cs.constraints ∧
    setup_cs.constraints.length = 2 ∧
    setup_cs.constraints.all is_strict_cmp = true ∧
    setup_cs.constraints.filter is_range_check = [] ∧
    (prove_cs mn mx v).constraints.filter is_range_check = [] :=
  ⟨rfl, rfl, rfl, rfl, rfl, rfl, rfl⟩

/-- Claim C9: generate_constraints is a deterministic function of the
circuit and of the incoming constraint-system state: two runs on equal
circuits from equal states produce identical results. -/
theorem generate_constraints_deterministic (c1 c2 : BoundCheckCircuit)
    (s1 s2 : ConstraintSystem) (h1 : c1 = c2) (h2 : s1 = s2) :
    generate_constraints c1 s1 = generate_constraints c2 s2 := by
  rw [h1, h2]

/-- Witness for claim C9 at the concrete proving instance of the test. -/
theorem generate_constraints_deterministic_witness :
    (⟨some 100, some 107, some 103⟩ : BoundCheckCircuit) =
      ⟨some 100, some 107, some 103⟩ ∧
    empty_cs .Prove = empty_cs .Prove ∧
    generate_constraints ⟨some 100, some 107, some 103⟩ (empty_cs .Prove) =
      generate_constraints ⟨some 100, some 107, some 103⟩ (empty_cs .Prove) :=
  ⟨rfl, rfl, generate_constraints_deterministic _ _ _ _ rfl rfl⟩

/-- Claim C3: for the proof built in the test, commitment-opening
verification succeeds at slot index 2 with the committed message value and
blinding v, and returns an error at slot index 1 or 3 and for a wrong
claimed value, even with the correct blinding.  The hypotheses state that
the relevant basis products differ, which holds for the random setup of the
test. -/
theorem commitment_opening_exact_triple (g0 g1 g2 g3 eta mn mx msg_val v wrong : Fr)
    (h1 : msg_val * g2 ≠ msg_val * g3)
    (h2 : wrong * g3 ≠ msg_val * g3) :
    ∃ pf, create_random_proof (test_circuit mn mx msg_val) v (test_vk g0 g1 g2 g3 eta)
        commit_witness_count = .ok pf ∧
      verify_witness_commitment (test_vk g0 g1 g2 g3 eta) pf 2 [msg_val] v = .ok () ∧
      verify_witness_commitment (test_vk g0 g1 g2 g3 eta) pf 1 [msg_val] v =
        .error .CommitmentMismatch ∧
      verify_witness_commitment (test_vk g0 g1 g2 g3 eta) pf 3 [msg_val] v =
        .error .MalformedSpec ∧
      verify_witness_commitment (test_vk g0 g1 g2 g3 eta) pf 2 [wrong] v =
        .error .CommitmentMismatch := by
  have hne1 : msg_val * g2 + v * eta ≠ msg_val * g3 + v * eta :=
    fun h => h1 (add_right_cancel h)
  have hne2 : wrong * g3 + v * eta ≠ msg_val * g3 + v * eta :=
    fun h => h2 (add_right_cancel h)
  refine ⟨_, rfl, ?_, ?_, ?_, ?_⟩
  · simp [verify_witness_commitment, create_random_proof, test_vk, test_circuit,
      empty_cs, msm, commit_witness_count]
  · simp only [verify_witness_commitment, create_random_proof, test_vk, test_circuit,
      empty_cs, msm, commit_witness_count, List.nil_append, List.take_succ_cons,
      List.take_zero, List.drop_succ_cons, List.drop_zero, List.zipWith_cons_cons,
      List.zipWith_nil_right, List.sum_cons, List.sum_nil, List.length_cons,
      List.length_nil, add_zero]
    rw [if_neg (by omega), if_neg hne1]
  · simp only [verify_witness_commitment, create_random_proof, test_vk, test_circuit,
      empty_cs, commit_witness_count, List.nil_append, List.length_cons,
      List.length_nil]
    rw [if_pos (by omega)]
  · simp only [verify_witness_commitment, create_random_proof, test_vk, test_circuit,
      empty_cs, msm, commit_witness_count, List.nil_append, List.take_succ_cons,
      List.take_zero, List.drop_succ_cons, List.drop_zero, List.zipWith_cons_cons,
      List.zipWith_nil_right, List.sum_cons, List.sum_nil, List.length_cons,
      List.length_nil, add_zero]
    rw [if_neg (by omega), if_neg hne2]

/-- Witness for claim C3 at concrete basis elements 1,2,3,4 and blinding
basis 5, committed value 103, blinding 7, wrong value 106. -/
theorem commitment_opening_exact_triple_witness :
    ((103 : Fr) * 3 ≠ 103 * 4) ∧ ((106 : Fr) * 4 ≠ 103 * 4) ∧
    (∃ pf, create_random_proof (test_circuit 100 107 103) 7 (test_vk 1 2 3 4 5)
        commit_witness_count = .ok pf ∧
      verify_witness_commitment (test_vk 1 2 3 4 5) pf 2 [103] 7 = .ok () ∧
      verify_witness_commitment (test_vk 1 2 3 4 5) pf 1 [103] 7 =
        .error .CommitmentMismatch ∧
      verify_witness_commitment (test_vk 1 2 3 4 5) pf 3 [103] 7 =
        .error .MalformedSpec ∧
      verify_witness_commitment (test_vk 1 2 3 4 5) pf 2 [106] 7 =
        .error .CommitmentMismatch) :=
  ⟨by decide, by decide,
    commitment_opening_exact_triple 1 2 3 4 5 100 107 103 7 106 (by decide) (by decide)⟩

/-- Claim C4: in the concrete end-to-end scenario, the credential has 10
attributes, the proved attribute at index 4 has value 103, the public
bounds are min = 100 and max = 107, setup fixes commit_witness_count = 1,
the commitment opens at the correct slot index 2 and at no other slot, and
the SNARK proof verifies against the public inputs [100, 107].  The
hypotheses state that the relevant basis products differ, which holds for
the random setup of the test. -/
theorem bound_check_message_scenario (g0 g1 g2 g3 eta v : Fr)
    (h1 : (103 : Fr) * g1 ≠ 103 * g3)
    (h2 : (103 : Fr) * g2 ≠ 103 * g3) :
    messages.length = 10 ∧
    messages[msg_idx]? = some 103 ∧
    commit_witness_count = 1 ∧
    (test_vk g0 g1 g2 g3 eta).gamma_abc_g1.length = 1 + 2 + commit_witness_count ∧
    ∃ pf, create_random_proof (test_circuit 100 107 103) v (test_vk g0 g1 g2 g3 eta)
        commit_witness_count = .ok pf ∧
      verify_witness_commitment (test_vk g0 g1 g2 g3 eta) pf 2 [103] v = .ok () ∧
      (∀ n, n ≠ 2 →
        opening_ok (verify_witness_commitment (test_vk g0 g1 g2 g3 eta) pf n [103] v) =
          false) ∧
      verify_proof pf [100, 107] = true := by
  have hne0 : (103 : Fr) * g1 + v * eta ≠ 103 * g3 + v * eta :=
    fun h => h1 (add_right_cancel h)
  have hne1 : (103 : Fr) * g2 + v * eta ≠ 103 * g3 + v * eta :=
    fun h => h2 (add_right_cancel h)
  refine ⟨rfl, rfl, rfl, rfl, _, rfl, ?_, ?_, ?_⟩
  · simp [verify_witness_commitment, create_random_proof, test_vk, test_circuit,
      empty_cs, msm, commit_witness_count]
  · intro n hn
    match n with
    | 0 =>
      simp only [verify_witness_commitment, create_random_proof, test_vk, test_circuit,
        empty_cs, msm, commit_witness_count, List.nil_append, List.take_succ_cons,
        List.take_zero, List.drop_succ_cons, List.drop_zero, List.zipWith_cons_cons,
        List.zipWith_nil_right, List.sum_cons, List.sum_nil, List.length_cons,
        List.length_nil, add_zero]
      rw [if_neg (by omega), if_neg hne0]
      rfl
    | 1 =>
      simp only [verify_witness_commitment, create_random_proof, test_vk, test_circuit,
        empty_cs, msm, commit_witness_count, List.nil_append, List.take_succ_cons,
        List.take_zero, List.drop_succ_cons, List.drop_zero, List.zipWith_cons_cons,
        List.zipWith_nil_right, List.sum_cons, List.sum_nil, List.length_cons,
        List.length_nil, add_zero]
      rw [if_neg (by omega), if_neg hne1]
      rfl
    | 2 => exact absurd rfl hn
    | (m + 3) =>
      simp only [verify_witness_commitment, create_random_proof, test_vk, test_circuit,
        empty_cs, commit_witness_count, List.nil_append, List.length_cons,
        List.length_nil]
      rw [if_pos (by omega)]
      rfl
  · simp only [create_random_proof, verify_proof, test_circuit, empty_cs,
      List.nil_append, satisfiedB, holdsB, eval_var, List.all_cons, List.all_nil,
      List.getElem?_cons_zero, List.getElem?_cons_succ, Bool.and_true]
    rfl

/-- Witness for claim C4 at concrete basis elements 1,2,3,4, blinding basis
5 and blinding randomness 7. -/
theorem bound_check_message_scenario_witness :
    ((103 : Fr) * 2 ≠ 103 * 4) ∧ ((103 : Fr) * 3 ≠ 103 * 4) ∧
    (messages.length = 10 ∧
      messages[msg_idx]? = some 103 ∧
      commit_witness_count = 1 ∧
      (test_vk 1 2 3 4 5).gamma_abc_g1.length = 1 + 2 + commit_witness_count ∧
      ∃ pf, create_random_proof (test_circuit 100 107 103) 7 (test_vk 1 2 3 4 5)
          commit_witness_count = .ok pf ∧
        verify_witness_commitment (test_vk 1 2 3 4 5) pf 2 [103] 7 = .ok () ∧
        (∀ n, n ≠ 2 →
          opening_ok (verify_witness_commitment (test_vk 1 2 3 4 5) pf n [103] 7) =
            false) ∧
        verify_proof pf [100, 107] = true) :=
  ⟨by decide, by decide,
    bound_check_message_scenario 1 2 3 4 5 7 (by decide) (by decide)⟩

/-- Claim C10: every run of the circuit allocates exactly three variables,
the witness for value first and the public inputs for min and max after it;
with commit_witness_count = 1 the committed witness is addressed at slot
index 2 (the number of public inputs) in commitment-opening verification,
its basis is the verifying-key element at index 1 + 2, and the proof's
commitment opens there. -/
theorem committed_witness_slot_index (mn mx v r w g0 g1 g2 g3 eta : Fr) :
    generate_constraints ⟨some mn, some mx, some v⟩ (empty_cs .Prove) =
      .ok (prove_cs mn mx v) ∧
    (prove_cs mn mx v).allocation_order = [.Witness, .Input, .Input] ∧
    (prove_cs mn mx v).allocation_order.length = 3 ∧
    (prove_cs mn mx v).num_witness_variables = 1 ∧
    (prove_cs mn mx v).num_instance_variables = 2 ∧
    commit_witness_count = 1 ∧
    (test_vk g0 g1 g2 g3 eta).gamma_abc_g1[1 + 2]? = some g3 ∧
    msm [w] (((test_vk g0 g1 g2 g3 eta).gamma_abc_g1.drop (1 + 2)).take 1) = w * g3 ∧
    (∃ pf, create_random_proof (test_circuit mn mx v) r (test_vk g0 g1 g2 g3 eta)
        commit_witness_count = .ok pf ∧
      verify_witness_commitment (test_vk g0 g1 g2 g3 eta) pf 2 [v] r = .ok ()) := by
  refine ⟨rfl, rfl, rfl, rfl, rfl, rfl, rfl, ?_, ⟨_, rfl, ?_⟩⟩
  · simp [msm, test_vk]
  · simp [verify_witness_commitment, create_random_proof, test_vk, test_circuit,
      empty_cs, msm, commit_witness_count]
